import Mathlib

/-!
Shallow embedding of the `geo` module of openwisp-controller
(`openwisp_controller/geo/models.py` and `openwisp_controller/geo/admin.py`).

Machine representation choices:
* model instances are records; an unsaved instance has `pk = none`;
* Python truthiness is made explicit per field type (`""`, `None`, `0` and an
  empty image are falsy);
* the database is a record of row lists; queries are `List.find?`/`List.filter`;
* a raised `ValidationError` is an explicit error value; an unhandled Python
  `AttributeError` (e.g. attribute access on `None`) is a distinct error value.
-/

namespace OWGeo

abbrev OrgId := Nat

/-- A stored image reference together with the pixel metadata the storage
backend reports (`image.url`, `image.width`, `image.height` are supplied by the
image-storage collaborator). An `ImageField` left blank has an empty name. -/
structure Image where
  name : String
  width : Int
  height : Int
  deriving Repr, DecidableEq

def Image.empty : Image := ⟨"", 0, 0⟩

/-- Python truthiness of an image field value. -/
def Image.truthy (i : Image) : Bool := i.name != ""

/-- `Location` (models.py 11-22): name, address (may be blank), geometry
(may be null), plus the `OrgMixin` organization foreign key.
`pk = none` means the instance has not been saved yet. -/
structure LocationM where
  pk : Option Nat
  organization_id : Option OrgId
  name : String
  address : String
  geometry : Option String
  deriving Repr, DecidableEq

/-- `Location()` — a fresh unsaved instance with field defaults. -/
def LocationM.new : LocationM := ⟨none, none, "", "", none⟩

/-- An in-memory `FloorPlan` instance (models.py 25-44). The `location`
attribute holds the related object (possibly itself unsaved). -/
structure FloorPlanM where
  pk : Option Nat
  organization_id : Option OrgId
  location : Option LocationM
  floor : Option Int
  image : Image
  deriving Repr, DecidableEq

/-- `FloorPlan()` — a fresh unsaved instance. -/
def FloorPlanM.new : FloorPlanM := ⟨none, none, none, none, Image.empty⟩

/-- A stored `FloorPlan` row: the foreign key is a stored location pk. -/
structure FloorPlanRow where
  pk : Nat
  organization_id : Option OrgId
  location_id : Nat
  floor : Int
  image : Image
  deriving Repr, DecidableEq

/-- The slice of `config.Device` this module reads: its display name and its
owning organization (`DeviceLocation.organization_id` property, models.py 82-84). -/
structure DeviceM where
  name : String
  organization_id : OrgId
  deriving Repr, DecidableEq

/-- An in-memory `DeviceLocation` instance (models.py 47-84). -/
structure DeviceLocationM where
  device : DeviceM
  type : String
  location : Option LocationM
  floorplan : Option FloorPlanM
  indoor : Option String
  deriving Repr, DecidableEq

/-- A stored `DeviceLocation` row (foreign keys as pks). -/
structure DeviceLocationRow where
  pk : Nat
  device : DeviceM
  type : String
  location_id : Option Nat
  floorplan_id : Option Nat
  indoor : Option String
  deriving Repr, DecidableEq

/-- The database state touched by this module. -/
structure DB where
  locations : List LocationM
  floorplans : List FloorPlanRow
  assignments : List DeviceLocationRow
  deriving Repr, DecidableEq

def DB.findLocation (db : DB) (pk : Nat) : Option LocationM :=
  db.locations.find? (fun r => r.pk == some pk)

def DB.findFloorPlan (db : DB) (pk : Nat) : Option FloorPlanRow :=
  db.floorplans.find? (fun r => r.pk == pk)

/-- Materialize a stored `FloorPlan` row as a model instance (the `location`
foreign key is dereferenced against the database). -/
def FloorPlanRow.toM (r : FloorPlanRow) (db : DB) : FloorPlanM :=
  ⟨some r.pk, r.organization_id, db.findLocation r.location_id, some r.floor, r.image⟩

/-! ### Python truthiness helpers -/

def strTruthy (s : String) : Bool := s != ""

def optStrTruthy : Option String → Bool
  | none => false
  | some s => s != ""

/-- `0` is falsy in Python, so a submitted floor of `0` counts as empty. -/
def optIntTruthy : Option Int → Bool
  | none => false
  | some n => n != 0

def optImgTruthy : Option Image → Bool
  | none => false
  | some i => i.truthy

/-! ### Model-level validation (`full_clean`) -/

/-- The `unique_together = ('name', 'organization')` check of
`Location.Meta` (models.py 18-19), run by `validate_unique` against the stored
table, excluding the instance itself by pk. -/
def locationUniqueOK (db : DB) (l : LocationM) : Bool :=
  !(db.locations.any (fun r =>
      r.pk != l.pk && r.name == l.name && r.organization_id == l.organization_id))

/-- `Location.full_clean`: `name` is a required non-blank `CharField`,
the `OrgMixin` organization foreign key is required, `address` may be blank and
`geometry` may be null (models.py 13-16); then the uniqueness check. -/
def locationFullClean (db : DB) (l : LocationM) : Bool :=
  l.name != "" && l.organization_id.isSome && locationUniqueOK db l

/-- The `unique_together = ('location', 'floor')` check of `FloorPlan.Meta`
(models.py 32-33): compared through the stored location pk; as in Django,
no collision is possible while the related location is unsaved (`pk = none`). -/
def floorplanUniqueOK (db : DB) (f : FloorPlanM) : Bool :=
  !(db.floorplans.any (fun r =>
      some r.pk != f.pk && some r.location_id == f.location.bind (·.pk) &&
      some r.floor == f.floor))

/-- `FloorPlan.full_clean`: `location`, `floor`, `image` and the organization
are required (models.py 26-30); `FloorPlan.clean` (models.py 40-41) runs
`_validate_org_relation('location')` — the organization must equal the
location's organization (mixin supplied by openwisp_users; modelled from the
spec: "organization must equal location's organization"); then uniqueness. -/
def floorplanFullClean (db : DB) (f : FloorPlanM) : Bool :=
  f.floor.isSome && f.image.truthy && f.organization_id.isSome &&
  (match f.location with
   | some loc => f.organization_id == loc.organization_id
   | none => false) &&
  floorplanUniqueOK db f

/-- Outcome of `DeviceLocation.full_clean`: validation may pass, fail with a
`ValidationError`, or crash with a Python `AttributeError`. -/
inductive CleanResult
  | ok
  | invalid
  | attrError
  deriving Repr, DecidableEq

/-- `DeviceLocation.clean` (models.py 67-71): `_validate_org_relation` on
`location` and (only when set) on `floorplan` — both modelled from the spec:
"location, if set, must belong to same organization; floorplan, if set, must
belong to same organization" (the mixin lives in openwisp_users) — followed by
`_clean_location` (models.py 63-65).  `_clean_location` evaluates
`self.location != self.floorplan.location`: when `type = 'indoor'` and
`floorplan` is `None`, the attribute access on `None` is an `AttributeError`,
not a `ValidationError`. -/
def deviceLocationClean (dl : DeviceLocationM) : CleanResult :=
  if dl.location.any (fun l => l.organization_id != some dl.device.organization_id) then
    .invalid
  else if dl.floorplan.any (fun f => f.organization_id != some dl.device.organization_id) then
    .invalid
  else if dl.type == "indoor" then
    match dl.floorplan with
    | none => .attrError
    | some f => if dl.location == f.location then .ok else .invalid
  else .ok

/-! ### The admin form (`DeviceLocationForm`, admin.py 103-246) -/

/-- The submitted field values after Django's per-field cleaning: all the
custom fields are declared `required=False` (admin.py 109-126), so each may be
empty.  `location` and `floorplan` carry the submitted pks of the
model-choice/choice fields. -/
structure RawForm where
  type : String
  location_selection : String
  location : Option Nat
  name : String
  address : String
  geometry : Option String
  floorplan_selection : String
  floorplan : Option Nat
  floor : Option Int
  image : Option Image
  indoor : String
  deriving Repr, DecidableEq

/-- `cleaned_data` as seen by `DeviceLocationForm.clean`: the `floorplan` entry
has been replaced by the return value of `clean_floorplan` (a resolved model
instance or `None`); `floorplanPresent = false` records that `clean_floorplan`
raised, which removes the key from `cleaned_data`. -/
structure CD where
  type : String
  location_selection : String
  location : Option LocationM
  name : String
  address : String
  geometry : Option String
  floorplan_selection : String
  floorplan : Option FloorPlanM
  floorplanPresent : Bool
  floor : Option Int
  image : Option Image
  indoor : String
  deriving Repr, DecidableEq

/-- `DeviceLocationForm.clean_floorplan` (admin.py 161-171).  Returns the value
stored into `cleaned_data['floorplan']`; `.error` models
`raise ValidationError(_('Invalid selection'))`.  Note that the
`FloorPlan.DoesNotExist` branch is `pass`, so a submitted pk that matches no
stored row falls through and the method returns `None`. -/
def clean_floorplan (db : DB) (r : RawForm) : Except Unit (Option FloorPlanM) :=
  if r.type != "indoor" || r.floorplan_selection == "new" then .ok none
  else
    match r.floorplan with
    | none => .error ()
    | some pk =>
      match db.findFloorPlan pk with
      | some row => .ok (some (row.toM db))
      | none => .ok none

/-- Assemble `cleaned_data` from the submitted values: the model-choice field
`location` resolves its pk against the stored table, and `floorplan` holds the
result of `clean_floorplan`. -/
def rawToCD (db : DB) (r : RawForm) (fp : Option FloorPlanM) (present : Bool) : CD :=
  { type := r.type
    location_selection := r.location_selection
    location := r.location.bind db.findLocation
    name := r.name
    address := r.address
    geometry := r.geometry
    floorplan_selection := r.floorplan_selection
    floorplan := fp
    floorplanPresent := present
    floor := r.floor
    image := r.image
    indoor := r.indoor }

/-- Python truthiness of `data[field]` for each field checked by the
requiredness loops in `DeviceLocationForm.clean` (admin.py 178-194). -/
def CD.fieldFalsy (d : CD) : String → Bool
  | "location_selection" => !(strTruthy d.location_selection)
  | "name" => !(strTruthy d.name)
  | "address" => !(strTruthy d.address)
  | "geometry" => !(optStrTruthy d.geometry)
  | "floorplan_selection" => !(strTruthy d.floorplan_selection)
  | "floorplan" => d.floorplan.isNone
  | "floor" => !(optIntTruthy d.floor)
  | "image" => !(optImgTruthy d.image)
  | "indoor" => !(strTruthy d.indoor)
  | _ => false

/-- A field is `in data` unless its key was removed; only `floorplan` can have
been removed before the requiredness loops run (by `clean_floorplan` raising). -/
def CD.fieldPresent (d : CD) : String → Bool
  | "floorplan" => d.floorplanPresent
  | _ => true

/-- The validation errors the form can record. `required` is the templated
"this field is required for locations of type %(type)s" message
(admin.py 177); `invalidSelection` is the error raised by `clean_floorplan`;
`nonField` records a `ValidationError` raised inside `clean` by
`full_clean()` of the named entity, or by the model-level validation. -/
inductive FieldErr
  | required (field : String) (type_ : String)
  | invalidSelection
  | nonField (source : String)
  deriving Repr, DecidableEq

/-- The `for field in fields: if field in data and not data[field]: add_error`
loops of `DeviceLocationForm.clean` (admin.py 179-183, 190-194). -/
def requiredErrs (d : CD) (fields : List String) : List FieldErr :=
  (fields.filter (fun f => d.fieldPresent f && d.fieldFalsy f)).map
    (fun f => FieldErr.required f d.type)

/-- `self.initial.get('image')` — `__init__` (admin.py 150-156) seeds the
initial image from the instance's current floorplan. -/
def formInitialImage (inst : DeviceLocationM) : Option Image :=
  inst.floorplan.map (·.image)

/-- `DeviceLocationForm._get_location_instance` (admin.py 210-219): reuse the
selected location or start a fresh one, sparse-update `name`/`address`/
`geometry` (a falsy submitted value keeps the stored one), and assign the
device's organization when unset. -/
def _get_location_instance (d : CD) (inst : DeviceLocationM) : LocationM :=
  let location := d.location.getD LocationM.new
  let location := { location with
    name := if strTruthy d.name then d.name else location.name
    address := if strTruthy d.address then d.address else location.address
    geometry := if optStrTruthy d.geometry then d.geometry else location.geometry }
  if location.organization_id.isNone then
    { location with organization_id := some inst.device.organization_id }
  else location

/-- `DeviceLocationForm._get_floorplan_instance` (admin.py 221-233): reuse the
resolved floorplan or start a fresh one, set its `location` to
`instance.location`, sparse-update `floor`, update `image` only when the
submitted image is truthy and differs from the image the form was initialized
with, and assign the device's organization when unset. -/
def _get_floorplan_instance (d : CD) (inst : DeviceLocationM)
    (initialImage : Option Image) : FloorPlanM :=
  let floorplan := d.floorplan.getD FloorPlanM.new
  let floorplan := { floorplan with location := inst.location }
  let floorplan := { floorplan with
    floor := if optIntTruthy d.floor then d.floor else floorplan.floor }
  let floorplan :=
    if optImgTruthy d.image && initialImage != d.image then
      { floorplan with image := d.image.getD Image.empty }
    else floorplan
  if floorplan.organization_id.isNone then
    { floorplan with organization_id := some inst.device.organization_id }
  else floorplan

/-- The state left behind by `DeviceLocationForm.clean`: the (possibly
mutated) `cleaned_data`, the location/floorplan assigned onto the instance,
and the accumulated validation errors. -/
structure CleanState where
  data : CD
  instLocation : Option LocationM
  instFloorplan : Option FloorPlanM
  errors : List FieldErr
  deriving Repr, DecidableEq

/-- The first requiredness loop of `clean` (admin.py 178-183): for
`outdoor`/`indoor` with no selected location, each falsy location field gets
the templated requiredness error. -/
def locationRequiredErrs (d : CD) : List FieldErr :=
  if (d.type == "outdoor" || d.type == "indoor") && d.location.isNone then
    requiredErrs d ["location_selection", "name", "address", "geometry"]
  else []

/-- The second requiredness loop of `clean` (admin.py 184-194): for `indoor`,
the floorplan fields, extended with `floorplan` when the selection is
`existing` and with `image` when it is `new`. -/
def floorplanRequiredErrs (d : CD) : List FieldErr :=
  if d.type == "indoor" then
    requiredErrs d (["floorplan_selection", "floor", "indoor"] ++
      (if d.floorplan_selection == "existing" then ["floorplan"]
       else if d.floorplan_selection == "new" then ["image"] else []))
  else []

/-- The silent `mobile` overrides of `clean` (admin.py 195-201); the `elif`
chain means they run exactly when the type is not `indoor`. -/
def mobileOverride (inst : DeviceLocationM) (d : CD) : CD :=
  if d.type != "indoor" && (d.type == "mobile" && inst.location.isNone) then
    { d with name := inst.device.name, address := "", geometry := none,
             location_selection := "new" }
  else if d.type != "indoor" && (d.type == "mobile" && inst.location.isSome) then
    { d with location_selection := "existing" }
  else d

/-- `DeviceLocationForm.clean` (admin.py 173-208), in source order: the two
requiredness loops, the silent `mobile` overrides, then `instance.location`
is assembled and `full_clean()`ed (a raised `ValidationError` aborts `clean`),
and for `indoor` the same for `instance.floorplan`. -/
def form_clean (db : DB) (inst : DeviceLocationM) (d0 : CD) : CleanState :=
  let errs1 : List FieldErr := locationRequiredErrs d0
  let errs2 : List FieldErr := floorplanRequiredErrs d0
  let d1 : CD := mobileOverride inst d0
  let loc := _get_location_instance d1 inst
  if !(locationFullClean db loc) then
    { data := d1, instLocation := some loc, instFloorplan := inst.floorplan,
      errors := errs1 ++ errs2 ++ [.nonField "location"] }
  else if d1.type == "indoor" then
    let fp := _get_floorplan_instance d1 { inst with location := some loc }
      (formInitialImage inst)
    if !(floorplanFullClean db fp) then
      { data := d1, instLocation := some loc, instFloorplan := some fp,
        errors := errs1 ++ errs2 ++ [.nonField "floorplan"] }
    else
      { data := d1, instLocation := some loc, instFloorplan := some fp,
        errors := errs1 ++ errs2 }
  else
    { data := d1, instLocation := some loc, instFloorplan := inst.floorplan,
      errors := errs1 ++ errs2 }

/-- Result of the whole validation pipeline; `crashed` records an unhandled
`AttributeError` from the model-level clean. -/
structure FormResult where
  state : CleanState
  crashed : Bool
  deriving Repr, DecidableEq

/-- The validation pipeline of the form, composing the repository's methods in
the order the framework runs them: per-field cleaning (`clean_floorplan`),
`DeviceLocationForm.clean`, then the model-level `DeviceLocation.full_clean`
on the instance as assembled by `clean` (the surrounding ModelForm machinery
is the framework's; modelled from the spec: "Reconciler validates
type-conditional requiredness → resolves/creates Location and (if indoor)
FloorPlan → invariant checks").  The form is valid when nothing raised and no
error was recorded. -/
def formFullClean (db : DB) (inst : DeviceLocationM) (r : RawForm) : FormResult :=
  let fieldStage :=
    match clean_floorplan db r with
    | .ok v => (rawToCD db r v true, ([] : List FieldErr))
    | .error _ => (rawToCD db r none false, [FieldErr.invalidSelection])
  let st := form_clean db inst fieldStage.1
  let st := { st with errors := fieldStage.2 ++ st.errors }
  let dl : DeviceLocationM :=
    { device := inst.device, type := st.data.type, location := st.instLocation,
      floorplan := st.instFloorplan, indoor := some st.data.indoor }
  match deviceLocationClean dl with
  | .ok => { state := st, crashed := false }
  | .invalid => { state := { st with errors := st.errors ++ [.nonField "model"] },
                  crashed := false }
  | .attrError => { state := st, crashed := true }

/-- `form.is_valid()`: nothing crashed and no error was recorded. -/
def FormResult.valid (res : FormResult) : Bool :=
  !res.crashed && res.state.errors.isEmpty

/-! ### Persistence -/

/-- A fresh pk for an inserted location row. -/
def DB.nextLocPk (db : DB) : Nat :=
  (db.locations.map (fun r => r.pk.getD 0)).foldr max 0 + 1

def DB.nextFpPk (db : DB) : Nat :=
  (db.floorplans.map (·.pk)).foldr max 0 + 1

def DB.nextDlPk (db : DB) : Nat :=
  (db.assignments.map (·.pk)).foldr max 0 + 1

/-- `location.save()`: update the row in place when the instance already has a
pk, otherwise insert it under a fresh pk.  Returns the saved instance (whose
pk is now set, as Django sets it on the saved object). -/
def locationSave (db : DB) (l : LocationM) : DB × LocationM :=
  match l.pk with
  | some p =>
    ({ db with locations :=
        db.locations.map (fun x => if x.pk == some p then { l with pk := some p } else x) }, l)
  | none =>
    let p := db.nextLocPk
    let l' := { l with pk := some p }
    ({ db with locations := db.locations ++ [l'] }, l')

/-- The database-level constraints on a location write: the organization
foreign key is NOT NULL and `unique_together ('name', 'organization')`
(models.py 18-19). -/
def locationConstraintOK (db : DB) (l : LocationM) : Bool :=
  l.organization_id.isSome && locationUniqueOK db l

/-- `floorplan.save()`: the row needs a saved location (Django refreshes the
`location_id` from the related object, which the form saves first), a floor
and an organization; `unique_together ('location', 'floor')` (models.py 32-33)
is enforced by the database. -/
def floorplanSave (db : DB) (f : FloorPlanM) : Except Unit (DB × FloorPlanRow) :=
  match f.location.bind (·.pk), f.floor, f.organization_id with
  | some lp, some fl, some org =>
    if !(floorplanUniqueOK db f) then .error ()
    else
      match f.pk with
      | some p =>
        let row : FloorPlanRow := ⟨p, some org, lp, fl, f.image⟩
        .ok ({ db with floorplans :=
                db.floorplans.map (fun x => if x.pk == p then row else x) }, row)
      | none =>
        let p := db.nextFpPk
        let row : FloorPlanRow := ⟨p, some org, lp, fl, f.image⟩
        .ok ({ db with floorplans := db.floorplans ++ [row] }, row)
  | _, _, _ => .error ()

/-- Persist the assignment row itself (`super().save()`): the one-to-one link
to the device makes this an upsert keyed by the device. -/
def assignmentSave (db : DB) (a : DeviceLocationM) : DB :=
  let row : DeviceLocationRow :=
    { pk := match db.assignments.find? (fun x => x.device == a.device) with
            | some old => old.pk
            | none => db.nextDlPk
      device := a.device, type := a.type,
      location_id := a.location.bind (·.pk),
      floorplan_id := a.floorplan.bind (·.pk),
      indoor := a.indoor }
  match db.assignments.find? (fun x => x.device == a.device) with
  | some _ =>
    { db with assignments :=
        db.assignments.map (fun x => if x.device == a.device then row else x) }
  | none => { db with assignments := db.assignments ++ [row] }

/-- One persistence step of `DeviceLocationForm.save`. -/
inductive SaveOp
  | saveLocation (l : LocationM)
  | saveFloorPlan (f : FloorPlanM)
  | saveAssignment (a : DeviceLocationM)
  deriving Repr, DecidableEq

/-- `DeviceLocationForm.save` (admin.py 235-246), threaded through the
database state: `instance.location = self._get_location_instance();
instance.location.save()`, then — only when `type = indoor` —
`instance.floorplan = self._get_floorplan_instance();
instance.floorplan.save()`, then `super().save()` persists the assignment
row.  Alongside the result it emits the trace of persistence steps in the
order the source performs them; a failing step stops the sequence with
`.error`. -/
def formSaveSteps (db : DB) (inst : DeviceLocationM) (st : CleanState) :
    Except Unit DB × List SaveOp :=
  let loc := _get_location_instance st.data inst
  if !(locationConstraintOK db loc) then (.error (), [SaveOp.saveLocation loc])
  else
    let saved := locationSave db loc
    let db1 := saved.1
    let locSaved := saved.2
    if st.data.type == "indoor" then
      let fp := _get_floorplan_instance st.data { inst with location := some locSaved }
        (formInitialImage inst)
      match floorplanSave db1 fp with
      | .error _ => (.error (), [SaveOp.saveLocation loc, SaveOp.saveFloorPlan fp])
      | .ok (db2, fprow) =>
        let a : DeviceLocationM :=
          { device := inst.device, type := st.data.type, location := some locSaved,
            floorplan := some (fprow.toM db2), indoor := some st.data.indoor }
        (.ok (assignmentSave db2 a),
         [SaveOp.saveLocation loc, SaveOp.saveFloorPlan fp, SaveOp.saveAssignment a])
    else
      let a : DeviceLocationM :=
        { device := inst.device, type := st.data.type, location := some locSaved,
          floorplan := inst.floorplan, indoor := some st.data.indoor }
      (.ok (assignmentSave db1 a),
       [SaveOp.saveLocation loc, SaveOp.saveAssignment a])

/-- The committed database state after the save request.  Modelled from the
spec: the admin framework wraps the save in one request-scoped transaction
("inside one logical transaction — if any step fails, nothing is committed"),
so a failing step rolls the state back to the pre-save database. -/
def formSave (db : DB) (inst : DeviceLocationM) (st : CleanState) : DB :=
  match (formSaveSteps db inst st).1 with
  | .ok db' => db'
  | .error _ => db

/-! ### Deletion (`DeviceLocation.delete`, models.py 73-80) -/

/-- `Location.delete()` with the foreign-key semantics declared on the models:
`DeviceLocation.location` and `DeviceLocation.floorplan` are `PROTECT`
(models.py 56-59), so the delete fails while the location — or a floorplan it
would cascade to — is still referenced; `FloorPlan.location` has the default
`CASCADE` (models.py 27), so the location's floorplans are deleted with it. -/
def locationDelete (db : DB) (pk : Nat) : Except Unit DB :=
  if db.assignments.any (fun a => a.location_id == some pk) then .error ()
  else if db.assignments.any (fun a =>
      (db.floorplans.filter (fun f => f.location_id == pk)).any
        (fun f => some f.pk == a.floorplan_id)) then .error ()
  else .ok { db with
    locations := db.locations.filter (fun l => l.pk != some pk),
    floorplans := db.floorplans.filter (fun f => f.location_id != pk) }

inductive DeleteErr
  | protected_
  | attributeError
  deriving Repr, DecidableEq

/-- `DeviceLocation.delete` (models.py 73-80): remember whether the type is
`mobile` (and capture `self.location`), delete the assignment row, then delete
the captured location.  When a mobile assignment has no location,
`location.delete()` is an attribute access on `None`. -/
def deviceLocationDelete (db : DB) (dl : DeviceLocationRow) : Except DeleteErr DB :=
  let delete_location := dl.type == "mobile"
  let db1 := { db with assignments := db.assignments.filter (fun a => a.pk != dl.pk) }
  if delete_location then
    match dl.location_id with
    | none => .error .attributeError
    | some lp =>
      match locationDelete db1 lp with
      | .ok db2 => .ok db2
      | .error _ => .error .protected_
  else .ok db1

/-! ### The JSON read views (`LocationAdmin`, admin.py 41-71) -/

/-- A JSON scalar as rendered into the responses. -/
inductive J
  | s (v : String)
  | i (v : Int)
  deriving Repr, DecidableEq

/-- `django.contrib.humanize.ordinal`: 11, 12, 13 take `th`, otherwise the
suffix follows the last digit. -/
def ordinal (n : Int) : String :=
  let t := (n % 100).toNat
  let suffix :=
    if t == 11 || t == 12 || t == 13 then "th"
    else match t % 10 with
      | 1 => "st"
      | 2 => "nd"
      | 3 => "rd"
      | _ => "th"
  toString n ++ suffix

/-- `FloorPlan.__str__` (models.py 35-38):
`'{0} {1} {2}'.format(self.location.name, ordinal(self.floor), 'floor')`. -/
def floorPlanStr (db : DB) (f : FloorPlanRow) : String :=
  ((db.findLocation f.location_id).map (·.name)).getD "" ++ " " ++
    ordinal f.floor ++ " " ++ "floor"

/-- How a view request can fail: `get_object_or_404` raises Http404 for an
unknown pk; an attribute access on `None` is an `AttributeError`. -/
inductive ViewErr
  | http404
  | attributeError
  deriving Repr, DecidableEq

/-- The body of the response of `LocationAdmin.json_view`. -/
structure LocJson where
  name : String
  address : String
  geometry : String
  deriving Repr, DecidableEq

/-- `LocationAdmin.json_view` (admin.py 51-57): `get_object_or_404`, then a
JSON body built from `instance.name`, `instance.address` and
`instance.geometry.json` — the geometry field is nullable (models.py 16), and
`.json` on `None` is an `AttributeError`, not a handled error. -/
def json_view (db : DB) (pk : Nat) : Except ViewErr LocJson :=
  match db.findLocation pk with
  | none => .error .http404
  | some loc =>
    match loc.geometry with
    | none => .error .attributeError
    | some g => .ok ⟨loc.name, loc.address, g⟩

/-- `LocationAdmin.floorplans_json_view` (admin.py 59-71): `get_object_or_404`,
then one object per floorplan of the location, with keys `id`, `str`, `floor`,
`image` (the storage URL), `image_width`, `image_height`. -/
def floorplans_json_view (db : DB) (pk : Nat) :
    Except ViewErr (List (List (String × J))) :=
  match db.findLocation pk with
  | none => .error .http404
  | some _ =>
    .ok ((db.floorplans.filter (fun f => f.location_id == pk)).map (fun f =>
      [("id", J.i f.pk),
       ("str", J.s (floorPlanStr db f)),
       ("floor", J.i f.floor),
       ("image", J.s f.image.name),
       ("image_width", J.i f.image.width),
       ("image_height", J.i f.image.height)]))

/-! ### Shared lemmas and concrete fixtures -/

theorem mem_of_findLocation {db : DB} {p : Nat} {l : LocationM}
    (h : db.findLocation p = some l) : l ∈ db.locations ∧ l.pk = some p := by
  have hm := List.mem_of_find?_eq_some h
  have hp := List.find?_some h
  simp only [beq_iff_eq] at hp
  exact ⟨hm, hp⟩

theorem mem_of_findFloorPlan {db : DB} {p : Nat} {f : FloorPlanRow}
    (h : db.findFloorPlan p = some f) : f ∈ db.floorplans ∧ f.pk = p := by
  have hm := List.mem_of_find?_eq_some h
  have hp := List.find?_some h
  simp only [beq_iff_eq] at hp
  exact ⟨hm, hp⟩

/-- A device, two stored locations, a floorplan stored at the second location,
used as concrete witnesses. -/
def devFix : DeviceM := ⟨"dev-42", 7⟩

def locFixA : LocationM := ⟨some 1, some 7, "HQ", "1 Main St", some "P1"⟩

def locFixB : LocationM := ⟨some 2, some 7, "Branch", "2 Side St", some "P2"⟩

def imgFix : Image := ⟨"f1.png", 100, 80⟩

def fpFixB : FloorPlanRow := ⟨10, some 7, 2, 3, imgFix⟩

def dbFix : DB := ⟨[locFixA, locFixB], [fpFixB], []⟩

/-- A fresh assignment being created for the device. -/
def instFix : DeviceLocationM := ⟨devFix, "indoor", none, none, none⟩

/-! ### C9 — model-level clean crashes on indoor with no floorplan -/

/-- C9: `DeviceLocation.clean` is total only when `floorplan` is non-null for
`type = 'indoor'`: provided the location organization relation itself passes,
an indoor assignment with `floorplan = None` makes `_clean_location`
dereference `self.floorplan.location`, which is an `AttributeError`, not a
field-level `ValidationError`. -/
theorem c9_clean_attr_error (dl : DeviceLocationM)
    (htype : dl.type = "indoor") (hfp : dl.floorplan = none)
    (horg : ∀ l, dl.location = some l →
      l.organization_id = some dl.device.organization_id) :
    deviceLocationClean dl = CleanResult.attrError := by
  unfold deviceLocationClean
  have h1 : dl.location.any
      (fun l => l.organization_id != some dl.device.organization_id) = false := by
    cases hl : dl.location with
    | none => rfl
    | some l => simp [Option.any, horg l hl]
  rw [h1, hfp, htype]
  simp

/-- C9 witness: a concrete indoor assignment with no floorplan crashes. -/
theorem c9_witness :
    deviceLocationClean ⟨devFix, "indoor", some locFixA, none, some "A1"⟩ =
      CleanResult.attrError :=
  c9_clean_attr_error ⟨devFix, "indoor", some locFixA, none, some "A1"⟩ rfl rfl
    (by intro l hl; cases hl; rfl)

/-! ### C10 — location JSON view crashes on null geometry -/

/-- C10: `LocationAdmin.json_view` returns 404 only for an unknown pk; a
stored location with a null geometry makes `instance.geometry.json` an
`AttributeError` instead of a JSON response; with a geometry it returns the
name/address/geometry body. -/
theorem c10_json_view (db : DB) (pk : Nat) :
    (db.findLocation pk = none → json_view db pk = Except.error ViewErr.http404) ∧
    (∀ loc, db.findLocation pk = some loc →
      (loc.geometry = none →
        json_view db pk = Except.error ViewErr.attributeError) ∧
      (∀ g, loc.geometry = some g →
        json_view db pk = Except.ok ⟨loc.name, loc.address, g⟩)) := by
  refine ⟨fun h => ?_, fun loc h => ⟨fun hg => ?_, fun g hg => ?_⟩⟩
  · simp [json_view, h]
  · simp [json_view, h, hg]
  · simp [json_view, h, hg]

/-- C10 witness: on the concrete database, an unknown pk gives 404, a stored
location with null geometry gives an `AttributeError`, one with a geometry
gives the JSON body. -/
theorem c10_witness :
    json_view ⟨[{ locFixA with geometry := none }], [], []⟩ 99 =
        Except.error ViewErr.http404 ∧
    json_view ⟨[{ locFixA with geometry := none }], [], []⟩ 1 =
        Except.error ViewErr.attributeError ∧
    json_view dbFix 1 = Except.ok ⟨"HQ", "1 Main St", "P1"⟩ := by
  refine ⟨(c10_json_view ⟨[{ locFixA with geometry := none }], [], []⟩ 99).1 (by decide),
          ((c10_json_view ⟨[{ locFixA with geometry := none }], [], []⟩ 1).2
            { locFixA with geometry := none } (by decide)).1 rfl,
          ((c10_json_view dbFix 1).2 locFixA (by decide)).2 "P1" rfl⟩

/-! ### C2 — `clean_floorplan` error cases -/

/-- C2 counterexample: the claim states that a submitted floorplan id that
matches no stored `FloorPlan` raises the `'Invalid selection'` validation
error.  On the concrete database (which stores only floorplan pk 10), an
indoor submission selecting the existing floorplan id 99 makes
`clean_floorplan` return `None` without raising: the `FloorPlan.DoesNotExist`
handler is `pass` (admin.py 169-170). -/
theorem c2_counterexample :
    (dbFix.findFloorPlan 99 = none) ∧
    clean_floorplan dbFix
      ⟨"indoor", "existing", some 1, "", "", none, "existing", some 99, some 3,
        none, "A1"⟩ = Except.ok none := by
  constructor <;> rfl

/-- C2 amended: for `type = indoor` and `floorplan_selection = existing`,
`clean_floorplan` raises `'Invalid selection'` only when the submitted id is
absent; an id that matches no stored row falls through the `except ... pass`
and yields `None` (so the form later reports a requiredness error on the
field, not `'Invalid selection'`); an id that resolves yields the stored
`FloorPlan`. -/
theorem c2_amended (db : DB) (r : RawForm)
    (htype : r.type = "indoor") (hsel : r.floorplan_selection = "existing") :
    (r.floorplan = none → clean_floorplan db r = Except.error ()) ∧
    (∀ pk, r.floorplan = some pk →
      (∀ row, db.findFloorPlan pk = some row →
        clean_floorplan db r = Except.ok (some (row.toM db))) ∧
      (db.findFloorPlan pk = none → clean_floorplan db r = Except.ok none)) := by
  refine ⟨fun h => ?_, fun pk h => ⟨fun row hrow => ?_, fun hrow => ?_⟩⟩
  · simp [clean_floorplan, htype, hsel, h]
  · simp [clean_floorplan, htype, hsel, h, hrow]
  · simp [clean_floorplan, htype, hsel, h, hrow]

/-- C2 witness: on the concrete database, an absent id raises, pk 10 resolves
to the stored floorplan, and pk 99 falls through to `None`. -/
theorem c2_witness :
    clean_floorplan dbFix
      ⟨"indoor", "existing", some 1, "", "", none, "existing", none, some 3,
        none, "A1"⟩ = Except.error () ∧
    clean_floorplan dbFix
      ⟨"indoor", "existing", some 1, "", "", none, "existing", some 10, some 3,
        none, "A1"⟩ = Except.ok (some (fpFixB.toM dbFix)) := by
  refine ⟨(c2_amended dbFix _ rfl rfl).1 rfl,
          ((c2_amended dbFix _ rfl rfl).2 10 rfl).1 fpFixB (by decide)⟩

/-! ### C8 — the floorplans JSON projection -/

/-- The keys of a rendered JSON object. -/
def objKeys (o : List (String × J)) : List String := o.map Prod.fst

/-- C8 counterexample: the claim states each floorplan is rendered with
exactly the keys `id, label, floor, image_url, image_width, image_height`.
On the concrete database the endpoint renders the keys
`id, str, floor, image, image_width, image_height` instead (admin.py 63-70):
the label is under `str` and the image URL under `image`. -/
theorem c8_counterexample :
    (floorplans_json_view dbFix 2).map (fun objs => objs.map objKeys) =
      Except.ok [["id", "str", "floor", "image", "image_width", "image_height"]] ∧
    (["id", "str", "floor", "image", "image_width", "image_height"] : List String) ≠
      ["id", "label", "floor", "image_url", "image_width", "image_height"] := by
  constructor
  · rfl
  · decide

/-- C8 amended: for every stored location pk, the endpoint performs no write
(it is a pure read of the database) and returns one object per stored
floorplan of that location, each with exactly the keys
`id, str, floor, image, image_width, image_height` (where `str` carries the
floorplan's label and `image` the image URL). -/
theorem c8_amended (db : DB) (pk : Nat) (loc : LocationM)
    (h : db.findLocation pk = some loc) :
    ∃ objs, floorplans_json_view db pk = Except.ok objs ∧
      objs.length =
        (db.floorplans.filter (fun f => f.location_id == pk)).length ∧
      ∀ o ∈ objs,
        objKeys o = ["id", "str", "floor", "image", "image_width",
                     "image_height"] := by
  unfold floorplans_json_view
  rw [h]
  refine ⟨_, rfl, by simp, ?_⟩
  intro o ho
  obtain ⟨f, _, rfl⟩ := List.mem_map.mp ho
  rfl

/-- C8 witness: on the concrete database the endpoint returns one object for
location 2, with the six actual keys. -/
theorem c8_witness :
    ∃ objs, floorplans_json_view dbFix 2 = Except.ok objs ∧
      objs.length =
        (dbFix.floorplans.filter (fun f => f.location_id == 2)).length ∧
      ∀ o ∈ objs,
        objKeys o = ["id", "str", "floor", "image", "image_width",
                     "image_height"] :=
  c8_amended dbFix 2 locFixB (by decide)

/-! ### C4 — deletion -/

/-- C4: deleting a `mobile` assignment also deletes the location it
references (provided, as the mobile ownership discipline guarantees, that no
other assignment references it and it has no floorplans — otherwise the
`PROTECT` foreign keys intervene); deleting an assignment of any other type
removes only the assignment row and leaves the location and floorplan tables
unchanged. -/
theorem c4_delete (db : DB) (dl : DeviceLocationRow) :
    (dl.type = "mobile" → ∀ lp, dl.location_id = some lp →
      (∀ a ∈ db.assignments, a.pk ≠ dl.pk → a.location_id ≠ some lp) →
      (∀ f ∈ db.floorplans, f.location_id ≠ lp) →
      deviceLocationDelete db dl = Except.ok
        { db with
          locations := db.locations.filter (fun l => l.pk != some lp),
          assignments := db.assignments.filter (fun a => a.pk != dl.pk) }) ∧
    (dl.type ≠ "mobile" →
      deviceLocationDelete db dl = Except.ok
        { db with assignments := db.assignments.filter (fun a => a.pk != dl.pk) }) := by
  constructor
  · intro hmob lp hlp hnoref hnofp
    unfold deviceLocationDelete
    rw [hmob, hlp]
    have h1 : (db.assignments.filter (fun a => a.pk != dl.pk)).any
        (fun a => a.location_id == some lp) = false := by
      rw [List.any_eq_false]
      intro a ha
      rw [List.mem_filter] at ha
      have := hnoref a ha.1 (by simpa using ha.2)
      simpa using this
    have h2 : db.floorplans.filter (fun f => f.location_id == lp) = [] := by
      rw [List.filter_eq_nil_iff]
      intro f hf
      simpa using hnofp f hf
    have h3 : db.floorplans.filter (fun f => f.location_id != lp) = db.floorplans := by
      rw [List.filter_eq_self]
      intro f hf
      simpa using hnofp f hf
    simp only [locationDelete, h1, h2, h3, List.any_nil, Bool.false_eq_true,
      if_false, List.any_eq_false]
    simp
  · intro hmob
    unfold deviceLocationDelete
    have : (dl.type == "mobile") = false := by simpa using hmob
    rw [this]
    simp

/-- C4 witness: deleting a concrete mobile assignment removes its location;
deleting a concrete outdoor assignment leaves both tables unchanged. -/
theorem c4_witness :
    deviceLocationDelete
      ⟨[locFixA, locFixB, ⟨some 3, some 7, "dev-42", "", none⟩], [fpFixB],
        [⟨1, devFix, "mobile", some 3, none, none⟩]⟩
      ⟨1, devFix, "mobile", some 3, none, none⟩ =
      Except.ok ⟨[locFixA, locFixB], [fpFixB], []⟩ ∧
    deviceLocationDelete
      ⟨[locFixA, locFixB], [fpFixB], [⟨1, devFix, "outdoor", some 1, none, none⟩]⟩
      ⟨1, devFix, "outdoor", some 1, none, none⟩ =
      Except.ok ⟨[locFixA, locFixB], [fpFixB], []⟩ := by
  constructor
  · have h := (c4_delete
      ⟨[locFixA, locFixB, ⟨some 3, some 7, "dev-42", "", none⟩], [fpFixB],
        [⟨1, devFix, "mobile", some 3, none, none⟩]⟩
      ⟨1, devFix, "mobile", some 3, none, none⟩).1 rfl 3 rfl
      (by decide) (by decide)
    rw [h]
    rfl
  · have h := (c4_delete
      ⟨[locFixA, locFixB], [fpFixB], [⟨1, devFix, "outdoor", some 1, none, none⟩]⟩
      ⟨1, devFix, "outdoor", some 1, none, none⟩).2 (by decide)
    rw [h]
    rfl

/-! ### C6 — silent overrides for mobile with no current location -/

set_option maxHeartbeats 1000000 in
/-- C6: a `mobile` submission on an assignment with no current location has
`name` silently set to the device's name, `address` to the empty string,
`geometry` to empty and `location_selection` to `'new'`, and no
field-requiredness error is recorded for any field. -/
theorem c6_mobile_override (db : DB) (inst : DeviceLocationM) (r : RawForm)
    (htype : r.type = "mobile") (hloc : inst.location = none) :
    ((formFullClean db inst r).state.data.name = inst.device.name) ∧
    ((formFullClean db inst r).state.data.address = "") ∧
    ((formFullClean db inst r).state.data.geometry = none) ∧
    ((formFullClean db inst r).state.data.location_selection = "new") ∧
    (∀ f t, FieldErr.required f t ∉ (formFullClean db inst r).state.errors) := by
  have hcf : clean_floorplan db r = .ok none := by
    simp [clean_floorplan, htype]
  unfold formFullClean
  rw [hcf]
  simp only [form_clean, locationRequiredErrs, floorplanRequiredErrs,
    mobileOverride, rawToCD, htype, hloc]
  simp only [Option.isNone_none, Bool.and_true, reduceIte]
  norm_num
  simp only [String.reduceEq, reduceIte, false_or, false_and, or_false, and_false,
    if_false, if_true, ite_false, ite_true]
  generalize deviceLocationClean _ = cr
  cases cr <;>
    refine ⟨?_, ?_, ?_, ?_, fun f t => ?_⟩ <;>
    (repeat' split) <;> simp

/-- A fresh mobile assignment and a mobile submission carrying user input that
the form will silently override. -/
def instMobFix : DeviceLocationM := ⟨devFix, "mobile", none, none, none⟩

def rMobFix : RawForm :=
  ⟨"mobile", "existing", none, "typed name", "typed addr", some "G", "", none,
    none, none, ""⟩

/-- C6 witness: on the concrete mobile submission the overridden values and
the absence of requiredness errors are as stated. -/
theorem c6_witness :
    ((formFullClean dbFix instMobFix rMobFix).state.data.name = "dev-42") ∧
    ((formFullClean dbFix instMobFix rMobFix).state.data.address = "") ∧
    ((formFullClean dbFix instMobFix rMobFix).state.data.geometry = none) ∧
    ((formFullClean dbFix instMobFix rMobFix).state.data.location_selection = "new") ∧
    (FieldErr.required "name" "mobile" ∉
      (formFullClean dbFix instMobFix rMobFix).state.errors) := by
  have h := c6_mobile_override dbFix instMobFix rMobFix rfl rfl
  exact ⟨h.1.trans rfl, h.2.1, h.2.2.1, h.2.2.2.1, h.2.2.2.2 "name" "mobile"⟩

/-! ### C3 — persistence order and transactional rollback -/

/-- C3: `DeviceLocationForm.save` persists the location first, then — exactly
when the type is `indoor` — the floorplan, then the assignment row, in this
order (on a failing step the trace stops, so nothing later was attempted);
and under the request-scoped transaction a failing step commits nothing: the
database is unchanged. -/
theorem c3_save_order (db : DB) (inst : DeviceLocationM) (st : CleanState) :
    (st.data.type = "indoor" →
      (∃ l fp a, (formSaveSteps db inst st).2 =
        [SaveOp.saveLocation l, SaveOp.saveFloorPlan fp, SaveOp.saveAssignment a]) ∨
      (∃ l fp, (formSaveSteps db inst st).2 =
          [SaveOp.saveLocation l, SaveOp.saveFloorPlan fp] ∧
        (formSaveSteps db inst st).1 = Except.error ()) ∨
      (∃ l, (formSaveSteps db inst st).2 = [SaveOp.saveLocation l] ∧
        (formSaveSteps db inst st).1 = Except.error ())) ∧
    (st.data.type ≠ "indoor" →
      (∃ l a, (formSaveSteps db inst st).2 =
        [SaveOp.saveLocation l, SaveOp.saveAssignment a]) ∨
      (∃ l, (formSaveSteps db inst st).2 = [SaveOp.saveLocation l] ∧
        (formSaveSteps db inst st).1 = Except.error ())) ∧
    ((formSaveSteps db inst st).1 = Except.error () → formSave db inst st = db) := by
  have hroll : (formSaveSteps db inst st).1 = Except.error () →
      formSave db inst st = db := by
    intro h
    unfold formSave
    rw [h]
  refine ⟨?_, ?_, hroll⟩
  · intro hind
    by_cases hc : (!locationConstraintOK db (_get_location_instance st.data inst)) = true
    · have h : formSaveSteps db inst st =
          (Except.error (), [SaveOp.saveLocation (_get_location_instance st.data inst)]) := by
        simp [formSaveSteps, hc]
      exact Or.inr (Or.inr ⟨_, by rw [h], by rw [h]⟩)
    · rw [Bool.not_eq_true] at hc
      cases hfs : floorplanSave (locationSave db (_get_location_instance st.data inst)).1
          (_get_floorplan_instance st.data
            { inst with location := some (locationSave db (_get_location_instance st.data inst)).2 }
            (formInitialImage inst)) with
      | error e =>
        have h : formSaveSteps db inst st =
            (Except.error (),
             [SaveOp.saveLocation (_get_location_instance st.data inst),
              SaveOp.saveFloorPlan (_get_floorplan_instance st.data
                { inst with location := some (locationSave db (_get_location_instance st.data inst)).2 }
                (formInitialImage inst))]) := by
          simp [formSaveSteps, hc, hind, hfs]
        exact Or.inr (Or.inl ⟨_, _, by rw [h], by rw [h]⟩)
      | ok p =>
        have h : formSaveSteps db inst st =
            (Except.ok (assignmentSave p.1
                { device := inst.device, type := "indoor",
                  location := some (locationSave db (_get_location_instance st.data inst)).2,
                  floorplan := some (p.2.toM p.1), indoor := some st.data.indoor }),
             [SaveOp.saveLocation (_get_location_instance st.data inst),
              SaveOp.saveFloorPlan (_get_floorplan_instance st.data
                { inst with location := some (locationSave db (_get_location_instance st.data inst)).2 }
                (formInitialImage inst)),
              SaveOp.saveAssignment
                { device := inst.device, type := "indoor",
                  location := some (locationSave db (_get_location_instance st.data inst)).2,
                  floorplan := some (p.2.toM p.1), indoor := some st.data.indoor }]) := by
          obtain ⟨db2, fprow⟩ := p
          simp [formSaveSteps, hc, hind, hfs]
        exact Or.inl ⟨_, _, _, by rw [h]⟩
  · intro hind
    have hind2 : (st.data.type == "indoor") = false := by simpa using hind
    by_cases hc : (!locationConstraintOK db (_get_location_instance st.data inst)) = true
    · have h : formSaveSteps db inst st =
          (Except.error (), [SaveOp.saveLocation (_get_location_instance st.data inst)]) := by
        simp [formSaveSteps, hc]
      exact Or.inr ⟨_, by rw [h], by rw [h]⟩
    · rw [Bool.not_eq_true] at hc
      have h : formSaveSteps db inst st =
          (Except.ok (assignmentSave (locationSave db (_get_location_instance st.data inst)).1
              { device := inst.device, type := st.data.type,
                location := some (locationSave db (_get_location_instance st.data inst)).2,
                floorplan := inst.floorplan, indoor := some st.data.indoor }),
           [SaveOp.saveLocation (_get_location_instance st.data inst),
            SaveOp.saveAssignment
              { device := inst.device, type := st.data.type,
                location := some (locationSave db (_get_location_instance st.data inst)).2,
                floorplan := inst.floorplan, indoor := some st.data.indoor }]) := by
        simp [formSaveSteps, hc, hind2]
      exact Or.inl ⟨_, _, by rw [h]⟩

/-- C3 witness: on the concrete valid indoor submission the trace is
location, floorplan, assignment in that order; and on a state whose location
collides with a stored one the save fails and commits nothing. -/
theorem c3_witness :
    ((∃ l fp a, (formSaveSteps dbFix instFix
        (formFullClean dbFix instFix
          ⟨"indoor", "existing", some 1, "", "", none, "existing", some 10,
            some 3, none, "A1"⟩).state).2 =
      [SaveOp.saveLocation l, SaveOp.saveFloorPlan fp, SaveOp.saveAssignment a]) ∨
     (∃ l fp, (formSaveSteps dbFix instFix
        (formFullClean dbFix instFix
          ⟨"indoor", "existing", some 1, "", "", none, "existing", some 10,
            some 3, none, "A1"⟩).state).2 =
          [SaveOp.saveLocation l, SaveOp.saveFloorPlan fp] ∧
        (formSaveSteps dbFix instFix
          (formFullClean dbFix instFix
            ⟨"indoor", "existing", some 1, "", "", none, "existing", some 10,
              some 3, none, "A1"⟩).state).1 = Except.error ()) ∨
     (∃ l, (formSaveSteps dbFix instFix
        (formFullClean dbFix instFix
          ⟨"indoor", "existing", some 1, "", "", none, "existing", some 10,
            some 3, none, "A1"⟩).state).2 = [SaveOp.saveLocation l] ∧
        (formSaveSteps dbFix instFix
          (formFullClean dbFix instFix
            ⟨"indoor", "existing", some 1, "", "", none, "existing", some 10,
              some 3, none, "A1"⟩).state).1 = Except.error ())) ∧
    formSave dbFix instFix
      ⟨rawToCD dbFix
          ⟨"outdoor", "new", none, "HQ", "x", some "G", "", none, none, none, ""⟩
          none true, none, none, []⟩ = dbFix := by
  constructor
  · exact (c3_save_order dbFix instFix _).1 rfl
  · exact (c3_save_order dbFix instFix _).2.2 rfl

/-! ### C5 — idempotence of the sparse merge -/

set_option maxHeartbeats 1000000 in
/-- C5: re-running the merge of `_get_location_instance` on the location it
produced (the second save of an unchanged submission) leaves `name` and
`address` unchanged, and re-running `_get_floorplan_instance` on the floorplan
it produced leaves `floor` unchanged; when the submitted image is empty or
equals the image the re-initialized form loaded (`initial['image']`), the
image is not re-assigned either. -/
theorem c5_idempotent (d : CD) (inst inst2 inst3 inst4 : DeviceLocationM)
    (init : Option Image)
    (himg : d.image = none ∨
      d.image = some (_get_floorplan_instance d inst2 init).image) :
    ((_get_location_instance { d with location := some (_get_location_instance d inst) } inst3).name
        = (_get_location_instance d inst).name) ∧
    ((_get_location_instance { d with location := some (_get_location_instance d inst) } inst3).address
        = (_get_location_instance d inst).address) ∧
    ((_get_floorplan_instance { d with floorplan := some (_get_floorplan_instance d inst2 init) } inst4
        (some (_get_floorplan_instance d inst2 init).image)).floor
        = (_get_floorplan_instance d inst2 init).floor) ∧
    ((_get_floorplan_instance { d with floorplan := some (_get_floorplan_instance d inst2 init) } inst4
        (some (_get_floorplan_instance d inst2 init).image)).image
        = (_get_floorplan_instance d inst2 init).image) := by
  refine ⟨?_, ?_, ?_, ?_⟩
  · simp only [_get_location_instance]
    by_cases hn : strTruthy d.name <;>
      simp [hn, apply_ite LocationM.name]
  · simp only [_get_location_instance]
    by_cases ha : strTruthy d.address <;>
      simp [ha, apply_ite LocationM.address]
  · simp only [_get_floorplan_instance]
    by_cases hf : optIntTruthy d.floor <;>
      by_cases hi : (optImgTruthy d.image && ((init != d.image) : Bool)) = true <;>
        simp [hf, hi, apply_ite FloorPlanM.floor]
  · generalize _get_floorplan_instance d inst2 init = F1 at himg ⊢
    rcases himg with h | h
    · simp [_get_floorplan_instance, h, optImgTruthy, apply_ite FloorPlanM.image]
    · simp [_get_floorplan_instance, h, apply_ite FloorPlanM.image]

/-- A concrete cleaned-data record for the idempotence witness: an indoor
edit of the stored floorplan with no newly submitted image. -/
def cdFix : CD :=
  ⟨"indoor", "existing", some locFixA, "HQ2", "addr", some "G", "existing",
    some (fpFixB.toM dbFix), true, some 3, none, "A1"⟩

/-- C5 witness: the merge is idempotent on the concrete cleaned data. -/
theorem c5_witness :
    ((_get_location_instance { cdFix with location := some (_get_location_instance cdFix instFix) } instFix).name
        = (_get_location_instance cdFix instFix).name) ∧
    ((_get_location_instance { cdFix with location := some (_get_location_instance cdFix instFix) } instFix).address
        = (_get_location_instance cdFix instFix).address) ∧
    ((_get_floorplan_instance { cdFix with floorplan := some (_get_floorplan_instance cdFix instFix (some imgFix)) } instFix
        (some (_get_floorplan_instance cdFix instFix (some imgFix)).image)).floor
        = (_get_floorplan_instance cdFix instFix (some imgFix)).floor) ∧
    ((_get_floorplan_instance { cdFix with floorplan := some (_get_floorplan_instance cdFix instFix (some imgFix)) } instFix
        (some (_get_floorplan_instance cdFix instFix (some imgFix)).image)).image
        = (_get_floorplan_instance cdFix instFix (some imgFix)).image) :=
  c5_idempotent cdFix instFix instFix instFix instFix (some imgFix) (Or.inl rfl)

/-- No two stored locations share the same (name, organization) pair
(rows are identified by pk). -/
def DB.locUnique (db : DB) : Prop :=
  ∀ a ∈ db.locations, ∀ b ∈ db.locations, a.pk ≠ b.pk →
    ¬(a.name = b.name ∧ a.organization_id = b.organization_id)

/-- No two stored floorplans share the same (location, floor) pair. -/
def DB.fpUnique (db : DB) : Prop :=
  ∀ a ∈ db.floorplans, ∀ b ∈ db.floorplans, a.pk ≠ b.pk →
    ¬(a.location_id = b.location_id ∧ a.floor = b.floor)

/-- C7: the `unique_together` declarations hold as invariants of the
persisted state and reject duplicates at validation time: a new location
duplicating a stored (name, organization) fails `full_clean`; a validated
location save preserves the no-duplicate invariant; and the same two facts
for floorplans and (location, floor). -/
theorem c7_uniqueness (db : DB) (l : LocationM) (f : FloorPlanM)
    (hwf : ∀ r ∈ db.locations, r.pk ≠ none) :
    (l.pk = none →
      (∃ r ∈ db.locations, r.name = l.name ∧ r.organization_id = l.organization_id) →
      locationFullClean db l = false) ∧
    (locationFullClean db l = true → db.locUnique → ((locationSave db l).1).locUnique) ∧
    (f.pk = none →
      (∃ r ∈ db.floorplans, some r.location_id = f.location.bind (fun x => x.pk) ∧
        some r.floor = f.floor) →
      floorplanFullClean db f = false) ∧
    (floorplanFullClean db f = true → db.fpUnique →
      ∀ db2 row, floorplanSave db f = Except.ok (db2, row) → db2.fpUnique) := by
  refine ⟨?_, ?_, ?_, ?_⟩
  · rintro hpk ⟨r, hr, hname, horg⟩
    have hne : locationUniqueOK db l = false := by
      unfold locationUniqueOK
      rw [Bool.not_eq_false']
      rw [List.any_eq_true]
      refine ⟨r, hr, ?_⟩
      have := hwf r hr
      rw [hpk]
      simp [hname, horg, this]
    simp [locationFullClean, hne]
  · intro hfc hu
    have huq : ∀ r ∈ db.locations, r.pk ≠ l.pk →
        ¬(r.name = l.name ∧ r.organization_id = l.organization_id) := by
      intro r hr hne hco
      simp only [locationFullClean, Bool.and_eq_true] at hfc
      have h2 := hfc.2
      unfold locationUniqueOK at h2
      rw [Bool.not_eq_true', List.any_eq_false] at h2
      have := h2 r hr
      simp [hco.1, hco.2, hne] at this
    cases hl : l.pk with
    | none =>
      intro a ha b hb hne hco
      simp only [locationSave, hl] at ha hb
      rw [List.mem_append] at ha hb
      rcases ha with ha | ha <;> rcases hb with hb | hb
      · exact hu a ha b hb hne hco
      · simp only [List.mem_singleton] at hb
        subst hb
        exact huq a ha (by rw [hl]; exact hwf a ha) (by simpa using hco)
      · simp only [List.mem_singleton] at ha
        subst ha
        have := huq b hb (by rw [hl]; exact hwf b hb)
        exact this ⟨hco.1.symm, hco.2.symm⟩
      · simp only [List.mem_singleton] at ha hb
        subst ha; subst hb
        exact absurd rfl hne
    | some p =>
      intro a2 ha2 b2 hb2 hne hco
      simp only [locationSave, hl] at ha2 hb2
      rw [List.mem_map] at ha2 hb2
      obtain ⟨a, ha, rfl⟩ := ha2
      obtain ⟨b, hb, rfl⟩ := hb2
      by_cases hap : (a.pk == some p) = true <;> by_cases hbp : (b.pk == some p) = true
      · rw [if_pos hap, if_pos hbp] at hne
        exact absurd rfl hne
      · rw [if_pos hap, if_neg (by simp [hbp])] at hco
        have hbne : b.pk ≠ l.pk := by
          rw [hl]
          simpa using hbp
        have := huq b hb hbne
        simp only at hco
        exact this ⟨hco.1.symm, hco.2.symm⟩
      · rw [if_neg (by simp [hap]), if_pos hbp] at hco
        have hane : a.pk ≠ l.pk := by
          rw [hl]
          simpa using hap
        have := huq a ha hane
        simp only at hco
        exact this ⟨hco.1, hco.2⟩
      · rw [if_neg (by simp [hap]), if_neg (by simp [hbp])] at hne hco
        have hab : a.pk ≠ b.pk := hne
        exact hu a ha b hb hab hco
  · rintro hpk ⟨r, hr, hloc, hfl⟩
    have hne : floorplanUniqueOK db f = false := by
      unfold floorplanUniqueOK
      rw [Bool.not_eq_false']
      rw [List.any_eq_true]
      refine ⟨r, hr, ?_⟩
      rw [hpk]
      simp [hloc, hfl]
    simp [floorplanFullClean, hne]
  · intro hfc hu db2 row hsave
    have huq : ∀ r ∈ db.floorplans, some r.pk ≠ f.pk →
        ¬(some r.location_id = f.location.bind (fun x => x.pk) ∧
          some r.floor = f.floor) := by
      intro r hr hne hco
      simp only [floorplanFullClean, Bool.and_eq_true] at hfc
      have h2 := hfc.2
      unfold floorplanUniqueOK at h2
      rw [Bool.not_eq_true', List.any_eq_false] at h2
      have := h2 r hr
      simp [hco.1, hco.2, hne] at this
    unfold floorplanSave at hsave
    split at hsave
    case _ lp fl org hlp hfl horg =>
      split at hsave
      case isTrue => exact absurd hsave (by simp)
      case isFalse hok =>
        split at hsave
        case h_1 p hp =>
          rw [Except.ok.injEq, Prod.mk.injEq] at hsave
          obtain ⟨hdb2, hrow⟩ := hsave
          subst hdb2
          intro a2 ha2 b2 hb2 hne hco
          simp only [List.mem_map] at ha2 hb2
          obtain ⟨a, ha, rfl⟩ := ha2
          obtain ⟨b, hb, rfl⟩ := hb2
          by_cases hap : (a.pk == p) = true <;> by_cases hbp : (b.pk == p) = true
          · rw [if_pos hap, if_pos hbp] at hne
            exact absurd rfl hne
          · rw [if_pos hap, if_neg (by simp [hbp])] at hco
            have := huq b hb (by rw [hp]; simpa using hbp)
            rw [hlp, hfl] at this
            simp only at hco
            exact this ⟨by simp [hco.1.symm], by simp [hco.2.symm]⟩
          · rw [if_neg (by simp [hap]), if_pos hbp] at hco
            have := huq a ha (by rw [hp]; simpa using hap)
            rw [hlp, hfl] at this
            simp only at hco
            exact this ⟨by simp [hco.1], by simp [hco.2]⟩
          · rw [if_neg (by simp [hap]), if_neg (by simp [hbp])] at hne hco
            exact hu a ha b hb hne hco
        case h_2 hp =>
          rw [Except.ok.injEq, Prod.mk.injEq] at hsave
          obtain ⟨hdb2, hrow⟩ := hsave
          subst hdb2
          intro a2 ha2 b2 hb2 hne hco
          rw [List.mem_append] at ha2 hb2
          rcases ha2 with ha | ha <;> rcases hb2 with hb | hb
          · exact hu a2 ha b2 hb hne hco
          · simp only [List.mem_singleton] at hb
            subst hb
            have := huq a2 ha (by rw [hp]; simp)
            rw [hlp, hfl] at this
            exact this ⟨by simp [hco.1], by simp [hco.2]⟩
          · simp only [List.mem_singleton] at ha
            subst ha
            have := huq b2 hb (by rw [hp]; simp)
            rw [hlp, hfl] at this
            exact this ⟨by simp [hco.1.symm], by simp [hco.2.symm]⟩
          · simp only [List.mem_singleton] at ha hb
            subst ha; subst hb
            exact absurd rfl hne
    case _ =>
      exact absurd hsave (by simp)

/-- C7 witness: on the concrete database a second "HQ" location for
organization 7 fails validation, and a second floorplan for (Branch, floor 3)
fails validation. -/
theorem c7_witness :
    locationFullClean dbFix ⟨none, some 7, "HQ", "other", none⟩ = false ∧
    floorplanFullClean dbFix ⟨none, some 7, some locFixB, some 3, imgFix⟩ = false := by
  constructor
  · exact (c7_uniqueness dbFix ⟨none, some 7, "HQ", "other", none⟩
      ⟨none, some 7, some locFixB, some 3, imgFix⟩ (by decide)).1 rfl
      ⟨locFixA, by decide, rfl, rfl⟩
  · exact (c7_uniqueness dbFix ⟨none, some 7, "HQ", "other", none⟩
      ⟨none, some 7, some locFixB, some 3, imgFix⟩ (by decide)).2.2.1 rfl
      ⟨fpFixB, by decide, rfl, rfl⟩

/-! ### C1 — infrastructure -/

/-- The claim's "Location resolvable", as the code checks it
(admin.py 178-183): an existing (resolving) location reference, or the
location selection plus name, address and geometry all supplied. -/
def locationResolvable (db : DB) (r : RawForm) : Bool :=
  (r.location.bind db.findLocation).isSome ||
  (strTruthy r.location_selection && strTruthy r.name && strTruthy r.address &&
    optStrTruthy r.geometry)

/-- The claim's "FloorPlan resolvable" (admin.py 161-171, 184-194):
`floorplan_selection`, `floor` and the indoor position supplied, plus a
submitted id resolving to a stored FloorPlan when the selection is
`existing`, or an image when it is `new`. -/
def floorplanResolvable (db : DB) (r : RawForm) : Bool :=
  strTruthy r.floorplan_selection && optIntTruthy r.floor && strTruthy r.indoor &&
  (r.floorplan_selection != "existing" || (r.floorplan.bind db.findFloorPlan).isSome) &&
  (r.floorplan_selection != "new" || optImgTruthy r.image)

/-- The `cleaned_data` the pipeline hands to `clean` (with the
`clean_floorplan` result in place; after a raised `'Invalid selection'` the
form is invalid regardless, so the entry is normalized to `None` here). -/
def c1CD (db : DB) (r : RawForm) : CD :=
  rawToCD db r
    (match clean_floorplan db r with
     | .ok v => v
     | .error _ => none) true

/-- The location instance the form assembles for the submission. -/
def c1Loc (db : DB) (inst : DeviceLocationM) (r : RawForm) : LocationM :=
  _get_location_instance (c1CD db r) inst

/-- The floorplan instance the form assembles for the submission. -/
def c1Fp (db : DB) (inst : DeviceLocationM) (r : RawForm) : FloorPlanM :=
  _get_floorplan_instance (c1CD db r)
    { inst with location := some (c1Loc db inst r) } (formInitialImage inst)

theorem loc_org_isSome (d : CD) (i : DeviceLocationM) :
    (_get_location_instance d i).organization_id.isSome = true := by
  unfold _get_location_instance
  cases hb : (d.location.getD LocationM.new).organization_id with
  | none => simp [hb]
  | some o => simp [hb]

theorem fp_location_eq (d : CD) (i : DeviceLocationM) (init : Option Image) :
    (_get_floorplan_instance d i init).location = i.location := by
  unfold _get_floorplan_instance
  split <;> split <;> simp [apply_ite FloorPlanM.location]

theorem fp_org_isSome (d : CD) (i : DeviceLocationM) (init : Option Image) :
    (_get_floorplan_instance d i init).organization_id.isSome = true := by
  unfold _get_floorplan_instance
  cases hb : (d.floorplan.getD FloorPlanM.new).organization_id with
  | none => simp [hb, apply_ite FloorPlanM.organization_id]
  | some o => simp [hb, apply_ite FloorPlanM.organization_id]

theorem loc_org_value (d : CD) (i : DeviceLocationM)
    (h : ∀ x, d.location = some x →
      x.organization_id = none ∨ x.organization_id = some i.device.organization_id) :
    (_get_location_instance d i).organization_id = some i.device.organization_id := by
  unfold _get_location_instance
  cases hl : d.location with
  | none => simp [hl, LocationM.new]
  | some x => rcases h x hl with h2 | h2 <;> simp [hl, h2]

theorem fp_org_value (d : CD) (i : DeviceLocationM) (init : Option Image)
    (h : ∀ x, d.floorplan = some x →
      x.organization_id = none ∨ x.organization_id = some i.device.organization_id) :
    (_get_floorplan_instance d i init).organization_id = some i.device.organization_id := by
  unfold _get_floorplan_instance
  cases hf : d.floorplan with
  | none => simp [hf, FloorPlanM.new, apply_ite FloorPlanM.organization_id]
  | some x =>
    rcases h x hf with h2 | h2 <;>
      simp [hf, h2, apply_ite FloorPlanM.organization_id]

theorem loc_name_value (d : CD) (i : DeviceLocationM)
    (h1 : d.location = none → strTruthy d.name = true)
    (h2 : ∀ x, d.location = some x → x.name ≠ "") :
    (_get_location_instance d i).name ≠ "" := by
  unfold _get_location_instance
  cases hl : d.location with
  | none =>
    have ht := h1 hl
    have hne : d.name ≠ "" := by simpa [strTruthy, bne_iff_ne] using ht
    simp [hl, ht, apply_ite LocationM.name, hne]
  | some x =>
    by_cases hn : strTruthy d.name = true
    · have hne : d.name ≠ "" := by simpa [strTruthy, bne_iff_ne] using hn
      simp [hl, hn, apply_ite LocationM.name, hne]
    · rw [Bool.not_eq_true] at hn
      simp [hl, hn, apply_ite LocationM.name, h2 x hl]

theorem fp_floor_value (d : CD) (i : DeviceLocationM) (init : Option Image)
    (h : optIntTruthy d.floor = true) :
    (_get_floorplan_instance d i init).floor = d.floor := by
  unfold _get_floorplan_instance
  simp [h, apply_ite FloorPlanM.floor]

theorem fp_image_truthy (d : CD) (i : DeviceLocationM) (init : Option Image)
    (hsome : ∀ x, d.floorplan = some x → x.image.truthy = true)
    (hnone : d.floorplan = none → optImgTruthy d.image = true ∧ init ≠ d.image) :
    (_get_floorplan_instance d i init).image.truthy = true := by
  have himg : optImgTruthy d.image = true → (d.image.getD Image.empty).truthy = true := by
    intro h
    cases hi : d.image with
    | none => rw [hi] at h; exact absurd h (by simp [optImgTruthy])
    | some im => rw [hi] at h; simpa [optImgTruthy] using h
  unfold _get_floorplan_instance
  cases hf : d.floorplan with
  | none =>
    obtain ⟨h1, h2⟩ := hnone hf
    have hcond : (optImgTruthy d.image && (init != d.image)) = true := by
      simp [h1, bne_iff_ne, h2]
    simp [hf, hcond, apply_ite FloorPlanM.image, himg h1]
  | some x =>
    by_cases hc : (optImgTruthy d.image && (init != d.image)) = true
    · have h1 : optImgTruthy d.image = true := (Bool.and_eq_true _ _ |>.mp hc).1
      simp [hf, hc, apply_ite FloorPlanM.image, himg h1]
    · rw [Bool.not_eq_true] at hc
      simp [hf, hc, apply_ite FloorPlanM.image]
      exact hsome x hf

theorem locReqErrs_nil (d : CD) (hd : d.type = "indoor") :
    locationRequiredErrs d = [] ↔
      (d.location.isSome = true ∨
        (strTruthy d.location_selection = true ∧ strTruthy d.name = true ∧
         strTruthy d.address = true ∧ optStrTruthy d.geometry = true)) := by
  unfold locationRequiredErrs requiredErrs
  by_cases hl : d.location.isSome = true
  · have hln : d.location.isNone = false := by
      cases h0 : d.location <;> simp_all
    simp [hd, hln, hl]
  · have hln : d.location.isNone = true := by
      cases h0 : d.location <;> simp_all
    by_cases h1 : strTruthy d.location_selection = true <;>
    by_cases h2 : strTruthy d.name = true <;>
    by_cases h3 : strTruthy d.address = true <;>
    by_cases h4 : optStrTruthy d.geometry = true <;>
      simp [hd, hln, hl, h1, h2, h3, h4, CD.fieldFalsy, CD.fieldPresent]

theorem isNone_not_isSome {α : Type} (o : Option α) : o.isNone = !o.isSome := by
  cases o <;> rfl

set_option maxHeartbeats 1000000 in
theorem fpReqErrs_nil (d : CD) (hd : d.type = "indoor")
    (hp : d.floorplanPresent = true) :
    floorplanRequiredErrs d = [] ↔
      (strTruthy d.floorplan_selection = true ∧ optIntTruthy d.floor = true ∧
       strTruthy d.indoor = true ∧
       (d.floorplan_selection = "existing" → d.floorplan.isSome = true) ∧
       (d.floorplan_selection = "new" → optImgTruthy d.image = true)) := by
  unfold floorplanRequiredErrs requiredErrs
  by_cases e1 : d.floorplan_selection = "existing"
  · have e2 : d.floorplan_selection ≠ "new" := by rw [e1]; decide
    have ht : strTruthy d.floorplan_selection = true := by rw [e1]; decide
    by_cases h2 : optIntTruthy d.floor = true <;>
    by_cases h3 : strTruthy d.indoor = true <;>
    by_cases h4 : d.floorplan.isSome = true <;>
      simp [hd, hp, e1, ht, h2, h3, h4, CD.fieldFalsy, CD.fieldPresent,
        isNone_not_isSome]
  · by_cases e2 : d.floorplan_selection = "new"
    · have ht : strTruthy d.floorplan_selection = true := by rw [e2]; decide
      by_cases h2 : optIntTruthy d.floor = true <;>
      by_cases h3 : strTruthy d.indoor = true <;>
      by_cases h4 : optImgTruthy d.image = true <;>
        simp [hd, hp, e1, e2, ht, h2, h3, h4, CD.fieldFalsy, CD.fieldPresent]
    · by_cases h1 : strTruthy d.floorplan_selection = true <;>
      by_cases h2 : optIntTruthy d.floor = true <;>
      by_cases h3 : strTruthy d.indoor = true <;>
        simp [hd, hp, e1, e2, h1, h2, h3, CD.fieldFalsy, CD.fieldPresent]

/-- The clean state the pipeline reaches for a submission (view of
`formFullClean` used by the lemmas below). -/
def c1St (db : DB) (inst : DeviceLocationM) (r : RawForm) : CleanState :=
  form_clean db inst (c1CD db r)

/-- The model instance `_post_clean` validates for a submission. -/
def c1Dl (db : DB) (inst : DeviceLocationM) (r : RawForm) : DeviceLocationM :=
  { device := inst.device, type := (c1St db inst r).data.type,
    location := (c1St db inst r).instLocation,
    floorplan := (c1St db inst r).instFloorplan,
    indoor := some (c1St db inst r).data.indoor }

theorem form_clean_indoor (db : DB) (inst : DeviceLocationM) (d0 : CD)
    (hd : d0.type = "indoor") :
    form_clean db inst d0 =
      if !(locationFullClean db (_get_location_instance d0 inst)) then
        ⟨d0, some (_get_location_instance d0 inst), inst.floorplan,
         locationRequiredErrs d0 ++ floorplanRequiredErrs d0 ++
           [FieldErr.nonField "location"]⟩
      else if !(floorplanFullClean db (_get_floorplan_instance d0
          { inst with location := some (_get_location_instance d0 inst) }
          (formInitialImage inst))) then
        ⟨d0, some (_get_location_instance d0 inst),
         some (_get_floorplan_instance d0
           { inst with location := some (_get_location_instance d0 inst) }
           (formInitialImage inst)),
         locationRequiredErrs d0 ++ floorplanRequiredErrs d0 ++
           [FieldErr.nonField "floorplan"]⟩
      else
        ⟨d0, some (_get_location_instance d0 inst),
         some (_get_floorplan_instance d0
           { inst with location := some (_get_location_instance d0 inst) }
           (formInitialImage inst)),
         locationRequiredErrs d0 ++ floorplanRequiredErrs d0⟩ := by
  have hmob : mobileOverride inst d0 = d0 := by
    unfold mobileOverride
    simp [hd]
  unfold form_clean
  rw [hmob]
  simp [hd]

theorem formFullClean_valid (db : DB) (inst : DeviceLocationM) (r : RawForm) :
    ((formFullClean db inst r).valid = true) ↔
      ((∃ v, clean_floorplan db r = Except.ok v) ∧
       (c1St db inst r).errors = [] ∧
       deviceLocationClean (c1Dl db inst r) = CleanResult.ok) := by
  unfold formFullClean FormResult.valid c1Dl c1St c1CD
  cases hcf : clean_floorplan db r with
  | error e =>
    simp only [hcf]
    generalize deviceLocationClean _ = cr
    cases cr <;> simp
  | ok v =>
    simp only [hcf]
    generalize hdl : deviceLocationClean _ = cr
    cases cr <;> simp_all
theorem c1_backward (db : DB) (inst : DeviceLocationM) (r : RawForm)
    (htype : r.type = "indoor")
    (hvalid : (formFullClean db inst r).valid = true) :
    locationResolvable db r = true ∧ floorplanResolvable db r = true := by
  obtain ⟨⟨v, hcf⟩, herrs, hdl⟩ := (formFullClean_valid db inst r).mp hvalid
  have hcd : c1CD db r = rawToCD db r v true := by
    unfold c1CD
    rw [hcf]
  have hcdty : (c1CD db r).type = "indoor" := by
    rw [hcd]
    exact htype
  rw [c1St, form_clean_indoor db inst _ hcdty] at herrs
  split at herrs
  · exact absurd herrs (by simp)
  split at herrs
  · exact absurd herrs (by simp)
  · simp only [List.append_eq_nil] at herrs
    obtain ⟨hL1, hL2⟩ := herrs
    have hA := (locReqErrs_nil _ hcdty).mp hL1
    have hB := (fpReqErrs_nil _ hcdty (by rw [hcd]; rfl)).mp hL2
    constructor
    · rw [locationResolvable]
      rw [hcd] at hA
      simp only [rawToCD] at hA
      rcases hA with h | ⟨h1, h2, h3, h4⟩
      · simp [h]
      · simp [h1, h2, h3, h4]
    · rw [floorplanResolvable]
      rw [hcd] at hB
      simp only [rawToCD] at hB
      obtain ⟨h1, h2, h3, h4, h5⟩ := hB
      have hex : r.floorplan_selection = "existing" →
          (r.floorplan.bind db.findFloorPlan).isSome = true := by
        intro he
        have hv := h4 he
        unfold clean_floorplan at hcf
        rw [htype, he] at hcf
        simp only [bne_self_eq_false, String.reduceBEq, Bool.or_false,
          Bool.false_or, Bool.false_eq_true, if_false, reduceIte] at hcf
        cases hfp : r.floorplan with
        | none =>
          rw [hfp] at hcf
          exact absurd hcf (by simp)
        | some pk =>
          rw [hfp] at hcf
          cases hfind : db.findFloorPlan pk with
          | none =>
            simp only [hfind, Except.ok.injEq] at hcf
            rw [← hcf] at hv
            exact absurd hv (by simp)
          | some row => simp [hfind]
      by_cases he : r.floorplan_selection = "existing"
      · have hl : strTruthy "existing" = true := by decide
        simp [h1, h2, h3, hex he, he, hl]
      · by_cases hn : r.floorplan_selection = "new"
        · have hl : strTruthy "new" = true := by decide
          simp [h1, h2, h3, h5 hn, hn, hl]
        · have hb1 : (r.floorplan_selection != "existing") = true := by
            simpa [bne_iff_ne] using he
          have hb2 : (r.floorplan_selection != "new") = true := by
            simpa [bne_iff_ne] using hn
          simp [h1, h2, h3, hb1, hb2]

theorem optIntTruthy_isSome {o : Option Int} (h : optIntTruthy o = true) :
    o.isSome = true := by
  cases o <;> simp_all [optIntTruthy]

theorem bind_findLocation_mem {db : DB} {o : Option Nat} {x : LocationM}
    (h : o.bind db.findLocation = some x) : x ∈ db.locations := by
  cases o with
  | none => exact absurd h (by simp)
  | some p =>
    simp only [Option.some_bind] at h
    exact (mem_of_findLocation h).1

set_option maxHeartbeats 2000000 in
theorem c1_forward_core (db : DB) (inst : DeviceLocationM) (r : RawForm)
    (v : Option FloorPlanM)
    (htype : r.type = "indoor")
    (hcf : clean_floorplan db r = Except.ok v)
    (hA : locationResolvable db r = true)
    (hsel : strTruthy r.floorplan_selection = true)
    (hfloor : optIntTruthy r.floor = true)
    (hindoor : strTruthy r.indoor = true)
    (hvex : r.floorplan_selection = "existing" → v.isSome = true)
    (hvnew : r.floorplan_selection = "new" → v = none)
    (hnamewf : ∀ x ∈ db.locations, x.name ≠ "")
    (hvimg : ∀ x, v = some x → x.image.truthy = true ∧
      (x.organization_id = none ∨
       x.organization_id = some inst.device.organization_id))
    (hvnone : v = none → optImgTruthy r.image = true ∧
      formInitialImage inst ≠ r.image)
    (horgloc : ∀ p x, r.location = some p → db.findLocation p = some x →
      x.organization_id = some inst.device.organization_id)
    (huloc : locationUniqueOK db (c1Loc db inst r) = true)
    (hufp : floorplanUniqueOK db (c1Fp db inst r) = true) :
    (formFullClean db inst r).valid = true := by
  apply (formFullClean_valid db inst r).mpr
  have hcd : c1CD db r = rawToCD db r v true := by
    unfold c1CD
    rw [hcf]
  have hcdty : (rawToCD db r v true).type = "indoor" := htype
  -- the assembled location
  have hname : (_get_location_instance (rawToCD db r v true) inst).name ≠ "" := by
    apply loc_name_value
    · intro hnone
      rw [locationResolvable] at hA
      rcases Bool.or_eq_true _ _ |>.mp hA with h | h
      · rw [show (rawToCD db r v true).location = r.location.bind db.findLocation
            from rfl] at hnone
        rw [hnone] at h
        exact absurd h (by simp)
      · exact ((Bool.and_eq_true _ _ |>.mp
          ((Bool.and_eq_true _ _ |>.mp
            ((Bool.and_eq_true _ _ |>.mp h).1)).1)).2)
    · intro x hx
      exact hnamewf x (bind_findLocation_mem hx)
  have huloc2 : locationUniqueOK db
      (_get_location_instance (rawToCD db r v true) inst) = true := by
    rw [c1Loc, hcd] at huloc
    exact huloc
  have hfc1 : locationFullClean db
      (_get_location_instance (rawToCD db r v true) inst) = true := by
    rw [locationFullClean]
    simp [hname, loc_org_isSome, huloc2, bne_iff_ne]
  -- the assembled location has the device's organization
  have hlocorg : (_get_location_instance (rawToCD db r v true) inst).organization_id
      = some inst.device.organization_id := by
    apply loc_org_value
    intro x hx
    cases hp : r.location with
    | none =>
      rw [show (rawToCD db r v true).location = r.location.bind db.findLocation
        from rfl, hp] at hx
      exact absurd hx (by simp)
    | some p =>
      rw [show (rawToCD db r v true).location = r.location.bind db.findLocation
        from rfl, hp, Option.some_bind] at hx
      exact Or.inr (horgloc p x hp hx)
  -- the assembled floorplan
  have hfp2 : floorplanUniqueOK db
      (_get_floorplan_instance (rawToCD db r v true)
        { inst with location := some (_get_location_instance (rawToCD db r v true) inst) }
        (formInitialImage inst)) = true := by
    rw [c1Fp, c1Loc, hcd] at hufp
    exact hufp
  have hfporg : (_get_floorplan_instance (rawToCD db r v true)
      { inst with location := some (_get_location_instance (rawToCD db r v true) inst) }
      (formInitialImage inst)).organization_id = some inst.device.organization_id := by
    apply fp_org_value
    intro x hx
    exact (hvimg x hx).2
  have hfloor2 : (_get_floorplan_instance (rawToCD db r v true)
      { inst with location := some (_get_location_instance (rawToCD db r v true) inst) }
      (formInitialImage inst)).floor.isSome = true := by
    rw [fp_floor_value _ _ _ hfloor]
    exact optIntTruthy_isSome hfloor
  have hfpimg : (_get_floorplan_instance (rawToCD db r v true)
      { inst with location := some (_get_location_instance (rawToCD db r v true) inst) }
      (formInitialImage inst)).image.truthy = true := by
    apply fp_image_truthy
    · intro x hx
      exact (hvimg x hx).1
    · intro hn
      exact hvnone hn
  have hfc2 : floorplanFullClean db
      (_get_floorplan_instance (rawToCD db r v true)
        { inst with location := some (_get_location_instance (rawToCD db r v true) inst) }
        (formInitialImage inst)) = true := by
    rw [floorplanFullClean]
    rw [fp_location_eq]
    simp [hfloor2, hfpimg, fp_org_isSome, hfp2, hfporg, hlocorg]
  -- requiredness
  have hL1 : locationRequiredErrs (rawToCD db r v true) = [] := by
    apply (locReqErrs_nil _ hcdty).mpr
    rw [locationResolvable] at hA
    rcases Bool.or_eq_true _ _ |>.mp hA with h | h
    · exact Or.inl h
    · obtain ⟨⟨⟨h1, h2⟩, h3⟩, h4⟩ := by
        simpa only [Bool.and_eq_true] using h
      exact Or.inr ⟨h1, h2, h3, h4⟩
  have hL2 : floorplanRequiredErrs (rawToCD db r v true) = [] := by
    apply (fpReqErrs_nil _ hcdty rfl).mpr
    refine ⟨hsel, hfloor, hindoor, ?_, ?_⟩
    · intro he
      exact hvex he
    · intro hn
      exact (hvnone (hvnew hn)).1
  refine ⟨⟨v, hcf⟩, ?_, ?_⟩
  · rw [c1St, hcd, form_clean_indoor db inst _ hcdty, hfc1, hfc2]
    simp [hL1, hL2]
  · rw [c1Dl, c1St, hcd, form_clean_indoor db inst _ hcdty, hfc1, hfc2]
    simp only [Bool.not_true, Bool.false_eq_true, if_false]
    simp [deviceLocationClean, hlocorg, hfporg, fp_location_eq, htype]

set_option maxHeartbeats 1000000 in
/-- C1 amended: for an indoor submission — under the side conditions that the
selection value is one of the form's choices, stored names/images are
well-formed, referenced rows belong to the device's organization, the merged
location and floorplan hit no uniqueness collision, and a fresh image is
submitted when the selection is `new` — the form validates successfully if
and only if the Location is resolvable (an existing reference, or selection
plus name, address and geometry all supplied) and the FloorPlan is resolvable
(selection, floor and indoor position supplied, plus a resolving floorplan id
for `existing` or an image for `new`).  The cross-entity equality is not a
check: the assembled FloorPlan's `location` is overwritten with the resolved
Location (admin.py 225), so a pre-existing mismatch is auto-corrected, never
a validation failure. -/
theorem c1_amended (db : DB) (inst : DeviceLocationM) (r : RawForm)
    (htype : r.type = "indoor")
    (hchoices : r.floorplan_selection = "" ∨ r.floorplan_selection = "new" ∨
      r.floorplan_selection = "existing")
    (hnamewf : ∀ x ∈ db.locations, x.name ≠ "")
    (himgwf : ∀ x ∈ db.floorplans, x.image.truthy = true)
    (horgloc : ∀ p x, r.location = some p → db.findLocation p = some x →
      x.organization_id = some inst.device.organization_id)
    (horgfp : ∀ p x, r.floorplan = some p → db.findFloorPlan p = some x →
      x.organization_id = some inst.device.organization_id)
    (huloc : locationUniqueOK db (c1Loc db inst r) = true)
    (hufp : floorplanUniqueOK db (c1Fp db inst r) = true)
    (himg : r.floorplan_selection = "new" → formInitialImage inst ≠ r.image) :
    ((formFullClean db inst r).valid = true ↔
      (locationResolvable db r = true ∧ floorplanResolvable db r = true)) ∧
    (c1Fp db inst r).location = some (c1Loc db inst r) := by
  constructor
  · constructor
    · exact fun h => c1_backward db inst r htype h
    · rintro ⟨hA, hB⟩
      rw [floorplanResolvable] at hB
      simp only [Bool.and_eq_true] at hB
      obtain ⟨⟨⟨⟨hsel, hfloor⟩, hindoor⟩, hex⟩, hnew⟩ := hB
      rcases hchoices with hse | hse | hse
      · rw [hse] at hsel
        exact absurd hsel (by decide)
      · have hcf : clean_floorplan db r = Except.ok none := by
          unfold clean_floorplan
          rw [htype, hse]
          simp
        exact c1_forward_core db inst r none htype hcf hA hsel hfloor hindoor
          (fun he => absurd (hse.symm.trans he) (by decide))
          (fun _ => rfl)
          hnamewf
          (fun x hx => absurd hx (by simp))
          (fun _ => ⟨by rw [hse] at hnew; simpa using hnew, himg hse⟩)
          horgloc huloc hufp
      · have hres : (r.floorplan.bind db.findFloorPlan).isSome = true := by
          rw [hse] at hex
          simpa using hex
        cases hfp : r.floorplan with
        | none =>
          rw [hfp] at hres
          exact absurd hres (by simp)
        | some pk =>
          rw [hfp, Option.some_bind] at hres
          cases hfind : db.findFloorPlan pk with
          | none =>
            rw [hfind] at hres
            exact absurd hres (by simp)
          | some row =>
            have hcf : clean_floorplan db r = Except.ok (some (row.toM db)) := by
              unfold clean_floorplan
              rw [htype, hse, hfp]
              simp [hfind]
            exact c1_forward_core db inst r (some (row.toM db)) htype hcf hA hsel
              hfloor hindoor
              (fun _ => rfl)
              (fun hn => absurd (hse.symm.trans hn) (by decide))
              hnamewf
              (fun x hx => by
                rw [Option.some.injEq] at hx
                subst hx
                exact ⟨himgwf row (mem_of_findFloorPlan hfind).1,
                  Or.inr (horgfp pk row hfp hfind)⟩)
              (fun hn => absurd hn (by simp))
              horgloc huloc hufp
  · rw [c1Fp, fp_location_eq]

def rMismatchFix : RawForm :=
  ⟨"indoor", "existing", some 1, "", "", none, "existing", some 10, some 3,
    none, "A1"⟩

/-- C1 counterexample: the claim requires that an indoor save succeeds only
if the resolved FloorPlan's location equals the resolved Location, a mismatch
being a hard validation failure that is never auto-corrected.  On the
concrete database the submission selects stored location 1 (HQ) together with
stored floorplan 10, which belongs to location 2 (Branch): the form
nevertheless validates, the assembled floorplan's location is silently
rewritten to HQ, and the save persists floorplan 10 with `location_id = 1`. -/
theorem c1_counterexample :
    ((formFullClean dbFix instFix rMismatchFix).valid = true) ∧
    dbFix.findFloorPlan 10 = some fpFixB ∧
    fpFixB.location_id = 2 ∧
    rMismatchFix.location = some 1 ∧
    (1 : Nat) ≠ 2 ∧
    ((formFullClean dbFix instFix rMismatchFix).state.instLocation = some locFixA) ∧
    ((formFullClean dbFix instFix rMismatchFix).state.instFloorplan =
      some { fpFixB.toM dbFix with location := some locFixA }) ∧
    ((formSaveSteps dbFix instFix
        (formFullClean dbFix instFix rMismatchFix).state).1 =
      Except.ok ⟨[locFixA, locFixB],
        [⟨10, some 7, 1, 3, imgFix⟩],
        [⟨1, devFix, "indoor", some 1, some 10, some "A1"⟩]⟩) := by
  exact ⟨rfl, rfl, rfl, rfl, by decide, rfl, rfl, rfl⟩

def rMatchFix : RawForm :=
  ⟨"indoor", "existing", some 2, "", "", none, "existing", some 10, some 3,
    none, "A1"⟩

/-- C1 witness: on a concrete matching indoor submission the amended
equivalence holds with all side conditions discharged. -/
theorem c1_witness :
    (((formFullClean dbFix instFix rMatchFix).valid = true) ↔
      (locationResolvable dbFix rMatchFix = true ∧
       floorplanResolvable dbFix rMatchFix = true)) ∧
    (c1Fp dbFix instFix rMatchFix).location =
      some (c1Loc dbFix instFix rMatchFix) := by
  refine c1_amended dbFix instFix rMatchFix rfl (Or.inr (Or.inr rfl))
    (by decide) (by decide) ?_ ?_ (by decide) (by decide)
    (fun h => absurd h (by decide))
  · intro p x hp hx
    have hp2 : p = 2 := by
      have : some (2 : Nat) = some p := hp
      simpa using this.symm
    subst hp2
    have hx2 : locFixB = x := by
      have : some locFixB = some x := hx
      simpa using this
    subst hx2
    rfl
  · intro p x hp hx
    have hp2 : p = 10 := by
      have : some (10 : Nat) = some p := hp
      simpa using this.symm
    subst hp2
    have hx2 : fpFixB = x := by
      have : some fpFixB = some x := hx
      simpa using this
    subst hx2
    rfl

end OWGeo
